import Mathlib

/-!
Verification of the whatsapp-image-converter operator dashboard against its
specification. The definitions below are a shallow embedding of the
client-side data layer: the centralized API client (transport), the settings
form lifecycle, the CSV export flow, the per-view polling configuration, and
two small display helpers (phone masking and geographic share display).
Each definition mirrors the corresponding TypeScript source.
-/

/- ## Transport: the centralized API client -/

/-- Association-list lookup for a header object: the first binding of the key,
mirroring JS property access on an object built from these bindings in order
where later duplicate keys would have overwritten earlier ones (the merge
function below never produces duplicate keys). -/
def lookupHeader (hs : List (String × String)) (k : String) : Option String :=
  (hs.find? (fun p => p.fst == k)).map Prod.snd

/-- JS object spread of two objects, base first: keys of base keep their
position, with the value overridden by extra whenever extra also binds the
key; keys bound only in extra follow in their own order. -/
def mergeJs (base extra : List (String × String)) : List (String × String) :=
  base.map (fun p => (p.fst, (lookupHeader extra p.fst).getD p.snd))
    ++ extra.filter (fun q => (lookupHeader base q.fst).isNone)

/-- Headers attached by the request helper: the object literal spreads the
caller headers after the JSON content-type default, so the caller bindings
override it on a key collision. -/
def requestHeaders (callerHeaders : List (String × String)) : List (String × String) :=
  mergeJs [("Content-Type", "application/json")] callerHeaders

/-- Default backend address used when no environment override is present. -/
def defaultApiBase : String := "http://localhost:8000"

/-- API base URL: the VITE_API_URL environment value when present and truthy
(JS treats the empty string as falsy), else the local development default. -/
def apiBaseUrl (viteApiUrl : Option String) : String :=
  match viteApiUrl with
  | some u => if u = "" then defaultApiBase else u
  | none => defaultApiBase

/-- Absolute URL built by the request helper: configured base joined with the path. -/
def requestUrl (viteApiUrl : Option String) (path : String) : String :=
  apiBaseUrl viteApiUrl ++ path

/-- URL requested by the duplicated fetchStats in StatsCard.tsx, which calls
fetch directly with a hardcoded address instead of going through the api client. -/
def fetchStatsUrl : String := "http://localhost:8000/api/admin/stats"

/-- URL requested by the duplicated fetchConversions in ConversionsTable.tsx,
likewise hardcoded rather than derived from the configured base. -/
def fetchConversionsUrl : String := "http://localhost:8000/api/admin/conversions"

/-- Decoded JSON error body as far as the request helper inspects it: only the
detail field is read, which may be absent. -/
structure ErrorBody where
  detail : Option String
deriving DecidableEq, Repr

/-- The value thrown by the request helper on a non-success status: a plain JS
Error, whose only payload is its message string. -/
structure JsError where
  message : String
deriving DecidableEq, Repr

/-- JS string-or-else: the left operand when truthy (nonempty), else the right. -/
def jsOrElse (s fallback : String) : String :=
  if s = "" then fallback else s

/-- The error object produced before throwing: the decoded body when decoding
succeeds, else the catch fallback object whose detail is the status text. -/
def errorObjDetail (decoded : Option ErrorBody) (statusText : String) : Option String :=
  match decoded with
  | some b => b.detail
  | none => some statusText

/-- Message of the thrown error: the detail field when present and truthy,
else the generic text carrying the numeric status. -/
def requestErrorMessage (status : Nat) (statusText : String)
    (decoded : Option ErrorBody) : String :=
  match errorObjDetail decoded statusText with
  | some s => jsOrElse s ("Request failed: " ++ toString status)
  | none => "Request failed: " ++ toString status

/-- The error value thrown by the request helper on a non-success status. -/
def requestThrown (status : Nat) (statusText : String)
    (decoded : Option ErrorBody) : JsError :=
  { message := requestErrorMessage status statusText decoded }

theorem lookupHeader_cons_self (k v : String) (t : List (String × String)) :
    lookupHeader ((k, v) :: t) k = some v := by
  unfold lookupHeader
  rw [List.find?_cons_of_pos _ (by simp)]
  rfl

/-- C3 counterexample: a caller-supplied Content-Type header does clobber the
JSON default, because the caller headers are spread after it. -/
theorem content_type_clobbered_counterexample :
    lookupHeader (requestHeaders [("Content-Type", "text/plain")]) "Content-Type"
      = some "text/plain"
    ∧ ("text/plain" : String) ≠ "application/json" := by
  exact ⟨by decide, by decide⟩

/-- C3 (amended): the merged headers carry the caller-supplied Content-Type when
one is given, and the JSON default exactly when the caller does not bind that
key; other caller headers are merged in alongside. -/
theorem requestHeaders_content_type (caller : List (String × String)) :
    lookupHeader (requestHeaders caller) "Content-Type"
      = some ((lookupHeader caller "Content-Type").getD "application/json") := by
  show lookupHeader (mergeJs [("Content-Type", "application/json")] caller) "Content-Type" = _
  unfold mergeJs
  simp only [List.map_cons, List.map_nil, List.cons_append, List.nil_append]
  exact lookupHeader_cons_self _ _ _

/-- C3 witness: with a caller header that does not bind Content-Type, the JSON
default is carried. -/
theorem requestHeaders_content_type_witness :
    lookupHeader (requestHeaders [("X-Request-Id", "7")]) "Content-Type"
      = some "application/json" :=
  (requestHeaders_content_type [("X-Request-Id", "7")]).trans (by decide)

/-- C6 counterexample: the thrown error is a plain Error carrying only the
message, so two failures with different HTTP statuses but the same decoded
detail surface as identical values — the status is not carried. -/
theorem thrown_error_has_no_status_counterexample :
    requestThrown 500 "Internal Server Error" (some { detail := some "boom" })
      = requestThrown 404 "Not Found" (some { detail := some "boom" })
    ∧ (500 : Nat) ≠ 404 := by
  exact ⟨by decide, by decide⟩

/-- C6 (amended): on a non-success status, a truthy decoded detail field becomes
the failure message; when body decoding fails the message falls back to the
status text; when the body decodes without a detail field the message is the
generic text carrying the status. The failure is surfaced as a plain Error
whose only payload is that message. -/
theorem request_error_surfacing (status : Nat) (statusText d : String)
    (hd : d ≠ "") (hs : statusText ≠ "") :
    (requestThrown status statusText (some { detail := some d })).message = d
    ∧ (requestThrown status statusText none).message = statusText
    ∧ (requestThrown status statusText (some { detail := none })).message
        = "Request failed: " ++ toString status := by
  refine ⟨?_, ?_, rfl⟩
  · simp [requestThrown, requestErrorMessage, errorObjDetail, jsOrElse, hd]
  · simp [requestThrown, requestErrorMessage, errorObjDetail, jsOrElse, hs]

/-- C6 witness: the amended behavior at a concrete failing response. -/
theorem request_error_surfacing_witness :
    ("boom" : String) ≠ ""
    ∧ ("Internal Server Error" : String) ≠ ""
    ∧ (requestThrown 500 "Internal Server Error" (some { detail := some "boom" })).message
        = "boom" := by
  refine ⟨by decide, by decide, ?_⟩
  exact (request_error_surfacing 500 "Internal Server Error" "boom"
    (by decide) (by decide)).1

/-- C7: the api client builds URLs from the configurable base, but the
duplicated StatsCard and ConversionsTable components hardcode the local
address, so an environment override does not reach them — contradicting the
api client comment that no hardcoded URLs exist anywhere else. -/
theorem hardcoded_url_bypasses_base :
    fetchStatsUrl = "http://localhost:8000/api/admin/stats"
    ∧ fetchConversionsUrl = "http://localhost:8000/api/admin/conversions"
    ∧ requestUrl none "/api/admin/stats" = fetchStatsUrl
    ∧ requestUrl (some "http://api.example.com") "/api/admin/stats"
        = "http://api.example.com/api/admin/stats"
    ∧ fetchStatsUrl ≠ requestUrl (some "http://api.example.com") "/api/admin/stats" := by
  refine ⟨rfl, rfl, rfl, rfl, by decide⟩

/- ## Settings form lifecycle -/

/-- Response shape of the settings load: the four credential fields, each of
which may be absent at runtime (the form guards each with a falsy fallback).
The response never contains a password field. -/
structure Settings where
  whatsapp_business_account_id : Option String
  phone_number_id : Option String
  access_token : Option String
  webhook_verify_token : Option String
deriving DecidableEq, Repr

/-- The five form fields of the settings form. -/
structure SettingsFormData where
  whatsapp_business_account_id : String
  phone_number_id : String
  access_token : String
  webhook_verify_token : String
  admin_password : String
deriving DecidableEq, Repr

/-- Form state produced by form.reset after a successful settings load: the
four credential fields come from the response (empty on absence) and the
password field is set to the empty string. -/
def loadSettingsReset (resp : Settings) : SettingsFormData :=
  { whatsapp_business_account_id := resp.whatsapp_business_account_id.getD ""
    phone_number_id := resp.phone_number_id.getD ""
    access_token := resp.access_token.getD ""
    webhook_verify_token := resp.webhook_verify_token.getD ""
    admin_password := "" }

/-- Form state after a successful save: onSubmit sets only the password field
to the empty string. -/
def onSubmitSuccess (f : SettingsFormData) : SettingsFormData :=
  { f with admin_password := "" }

/-- Form state after a failed save: the catch branch only reports a toast and
leaves every form field, the password included, untouched. -/
def onSubmitFailure (f : SettingsFormData) : SettingsFormData :=
  f

/-- A field-level validation message reported by the zod schema. -/
structure FieldIssue where
  field : String
  message : String
deriving DecidableEq, Repr

/-- Issues reported by settingsSchema: each credential field requires length at
least 1 and the admin password requires length at least 6, each with its own
message. -/
def settingsSchemaIssues (d : SettingsFormData) : List FieldIssue :=
  (if d.whatsapp_business_account_id.length < 1 then
    [{ field := "whatsapp_business_account_id", message := "Required" }] else [])
  ++ (if d.phone_number_id.length < 1 then
    [{ field := "phone_number_id", message := "Required" }] else [])
  ++ (if d.access_token.length < 1 then
    [{ field := "access_token", message := "Required" }] else [])
  ++ (if d.webhook_verify_token.length < 1 then
    [{ field := "webhook_verify_token", message := "Required" }] else [])
  ++ (if d.admin_password.length < 6 then
    [{ field := "admin_password", message := "Minimum 6 characters" }] else [])

/-- Payload sent to the network by form.handleSubmit with the zod resolver:
the resolver validates first and onSubmit, which performs the save call,
runs only when the schema reports no issues. -/
def submittedPayload (d : SettingsFormData) : Option SettingsFormData :=
  if settingsSchemaIssues d = [] then some d else none

/-- Number of network calls a submission performs: one save call when the
schema passes, none otherwise. -/
def networkCallCount (d : SettingsFormData) : Nat :=
  if settingsSchemaIssues d = [] then 1 else 0

/-- C1: a successful settings load resets the four credential fields from the
response and leaves the password field empty; a successful save clears the
password while keeping the other fields; a failed save leaves the whole form,
the password included, unchanged. -/
theorem admin_password_lifecycle (resp : Settings) (f : SettingsFormData) :
    (loadSettingsReset resp).admin_password = ""
    ∧ loadSettingsReset resp
        = { whatsapp_business_account_id := resp.whatsapp_business_account_id.getD ""
            phone_number_id := resp.phone_number_id.getD ""
            access_token := resp.access_token.getD ""
            webhook_verify_token := resp.webhook_verify_token.getD ""
            admin_password := "" }
    ∧ onSubmitSuccess f
        = { whatsapp_business_account_id := f.whatsapp_business_account_id
            phone_number_id := f.phone_number_id
            access_token := f.access_token
            webhook_verify_token := f.webhook_verify_token
            admin_password := "" }
    ∧ onSubmitFailure f = f := by
  exact ⟨rfl, rfl, rfl, rfl⟩

/-- C1 witness: the lifecycle evaluated at a concrete response and form state. -/
theorem admin_password_lifecycle_witness :
    (loadSettingsReset
        { whatsapp_business_account_id := some "123"
          phone_number_id := some "456"
          access_token := none
          webhook_verify_token := some "tok" }).admin_password = ""
    ∧ onSubmitFailure
        { whatsapp_business_account_id := "123"
          phone_number_id := "456"
          access_token := "EAA"
          webhook_verify_token := "tok"
          admin_password := "secret1" }
      = { whatsapp_business_account_id := "123"
          phone_number_id := "456"
          access_token := "EAA"
          webhook_verify_token := "tok"
          admin_password := "secret1" } :=
  ⟨(admin_password_lifecycle
      { whatsapp_business_account_id := some "123"
        phone_number_id := some "456"
        access_token := none
        webhook_verify_token := some "tok" }
      { whatsapp_business_account_id := "123"
        phone_number_id := "456"
        access_token := "EAA"
        webhook_verify_token := "tok"
        admin_password := "secret1" }).1,
   (admin_password_lifecycle
      { whatsapp_business_account_id := some "123"
        phone_number_id := some "456"
        access_token := none
        webhook_verify_token := some "tok" }
      { whatsapp_business_account_id := "123"
        phone_number_id := "456"
        access_token := "EAA"
        webhook_verify_token := "tok"
        admin_password := "secret1" }).2.2.2⟩

theorem string_length_zero_iff (s : String) : s.length = 0 ↔ s = "" := by
  constructor
  · intro h
    obtain ⟨l⟩ := s
    have hl : l = [] := List.length_eq_zero.mp h
    subst hl
    rfl
  · intro h
    subst h
    rfl

theorem settingsSchemaIssues_nil_iff (d : SettingsFormData) :
    settingsSchemaIssues d = []
      ↔ (d.whatsapp_business_account_id ≠ "" ∧ d.phone_number_id ≠ ""
          ∧ d.access_token ≠ "" ∧ d.webhook_verify_token ≠ ""
          ∧ 6 ≤ d.admin_password.length) := by
  unfold settingsSchemaIssues
  split_ifs with h1 h2 h3 h4 h5 <;>
    simp_all [Nat.lt_one_iff, string_length_zero_iff, Nat.not_lt]

/-- C2: a submission performs zero network calls exactly when one of the four
credential fields is empty or the admin password is shorter than 6
characters, equivalently exactly when the schema reports an issue; the
payload reaches the network exactly when the schema passes; and each failing
field carries its own field-level message. -/
theorem settings_validation_gate (d : SettingsFormData) :
    (networkCallCount d = 0
      ↔ (d.whatsapp_business_account_id = "" ∨ d.phone_number_id = ""
          ∨ d.access_token = "" ∨ d.webhook_verify_token = ""
          ∨ d.admin_password.length < 6))
    ∧ (networkCallCount d = 0 ↔ settingsSchemaIssues d ≠ [])
    ∧ (submittedPayload d = some d ↔ settingsSchemaIssues d = [])
    ∧ ({ field := "admin_password", message := "Minimum 6 characters" }
          ∈ settingsSchemaIssues d ↔ d.admin_password.length < 6)
    ∧ ({ field := "whatsapp_business_account_id", message := "Required" }
          ∈ settingsSchemaIssues d ↔ d.whatsapp_business_account_id = "")
    ∧ ({ field := "phone_number_id", message := "Required" }
          ∈ settingsSchemaIssues d ↔ d.phone_number_id = "")
    ∧ ({ field := "access_token", message := "Required" }
          ∈ settingsSchemaIssues d ↔ d.access_token = "")
    ∧ ({ field := "webhook_verify_token", message := "Required" }
          ∈ settingsSchemaIssues d ↔ d.webhook_verify_token = "") := by
  have hnil := settingsSchemaIssues_nil_iff d
  refine ⟨?_, ?_, ?_, ?_, ?_, ?_, ?_, ?_⟩
  · unfold networkCallCount
    split_ifs with h
    · rw [hnil] at h
      refine iff_of_false not_false ?_
      push_neg
      exact ⟨h.1, h.2.1, h.2.2.1, h.2.2.2.1, h.2.2.2.2⟩
    · refine iff_of_true rfl ?_
      by_contra hbad
      push_neg at hbad
      exact h (hnil.mpr ⟨hbad.1, hbad.2.1, hbad.2.2.1, hbad.2.2.2.1, hbad.2.2.2.2⟩)
  · unfold networkCallCount
    split_ifs with h <;> simp [h]
  · unfold submittedPayload
    split_ifs with h <;> simp [h]
  · unfold settingsSchemaIssues
    split_ifs <;>
      simp_all +decide [Nat.lt_one_iff, string_length_zero_iff, Nat.not_lt]
  · unfold settingsSchemaIssues
    split_ifs <;>
      simp_all +decide [Nat.lt_one_iff, string_length_zero_iff, Nat.not_lt]
  · unfold settingsSchemaIssues
    split_ifs <;>
      simp_all +decide [Nat.lt_one_iff, string_length_zero_iff, Nat.not_lt]
  · unfold settingsSchemaIssues
    split_ifs <;>
      simp_all +decide [Nat.lt_one_iff, string_length_zero_iff, Nat.not_lt]
  · unfold settingsSchemaIssues
    split_ifs <;>
      simp_all +decide [Nat.lt_one_iff, string_length_zero_iff, Nat.not_lt]

/-- C2 witness: a five-character password is rejected locally with its length
message and performs zero network calls. -/
theorem settings_validation_gate_witness :
    networkCallCount
        { whatsapp_business_account_id := "123"
          phone_number_id := "456"
          access_token := "EAA"
          webhook_verify_token := "tok"
          admin_password := "abc" } = 0
    ∧ { field := "admin_password", message := "Minimum 6 characters" }
        ∈ settingsSchemaIssues
          { whatsapp_business_account_id := "123"
            phone_number_id := "456"
            access_token := "EAA"
            webhook_verify_token := "tok"
            admin_password := "abc" } := by
  refine ⟨(settings_validation_gate _).1.mpr ?_, (settings_validation_gate _).2.2.2.1.mpr ?_⟩
  · exact Or.inr (Or.inr (Or.inr (Or.inr (by decide))))
  · decide

/- ## Export flow -/

/-- The four UI states of the export control. -/
inductive ExportState where
  | idle
  | loading
  | success
  | error
deriving DecidableEq, Repr

/-- The export control is disabled exactly while an export is loading. -/
def exportButtonDisabled (s : ExportState) : Bool :=
  s = ExportState.loading

/-- Effect of a click on the export control: the host environment delivers no
click to a disabled control, so handleExport runs only when the control is
enabled; handleExport immediately enters loading and issues exactly one
export network call. Returns the next state and the number of calls issued. -/
def clickExport (s : ExportState) : ExportState × Nat :=
  if exportButtonDisabled s then (s, 0) else (ExportState.loading, 1)

/-- Full UI state of the export control: button state plus error message. -/
structure ExportUiState where
  state : ExportState
  errorMessage : String
deriving DecidableEq, Repr

/-- UI state right after a successful export resolves (the error message was
cleared when the export started). -/
def afterExportSuccess : ExportUiState :=
  { state := ExportState.success, errorMessage := "" }

/-- UI state right after a failed export: the message from the error is
retained and displayed. -/
def afterExportFailure (msg : String) : ExportUiState :=
  { state := ExportState.error, errorMessage := msg }

/-- Delay in milliseconds before the success state auto-resets to idle. -/
def successResetDelayMs : Nat := 3000

/-- Delay in milliseconds before the error state auto-resets to idle. -/
def errorResetDelayMs : Nat := 5000

/-- The timer registered on success resets only the state to idle. -/
def successResetAction (u : ExportUiState) : ExportUiState :=
  { u with state := ExportState.idle }

/-- The timer registered on failure resets the state to idle and clears the
error message. -/
def errorResetAction (_ : ExportUiState) : ExportUiState :=
  { state := ExportState.idle, errorMessage := "" }

/-- A UTC calendar date as carried by the JS Date the export flow formats. -/
structure UtcDate where
  year : Nat
  month : Nat
  day : Nat
deriving DecidableEq, Repr

/-- Two-digit zero-padded decimal field, as produced for the month and day
components of the ISO date string of toISOString. -/
def padZero2 (n : Nat) : List Char :=
  [Nat.digitChar (n / 10 % 10), Nat.digitChar (n % 10)]

/-- Four-digit zero-padded decimal field, as produced for the year component
of the ISO date string of toISOString. -/
def padZero4 (n : Nat) : List Char :=
  [Nat.digitChar (n / 1000 % 10), Nat.digitChar (n / 100 % 10),
   Nat.digitChar (n / 10 % 10), Nat.digitChar (n % 10)]

/-- The date part of toISOString, i.e. the text before the T separator:
YYYY-MM-DD for the given UTC date. -/
def isoDatePart (d : UtcDate) : String :=
  String.mk (padZero4 d.year ++ ['-'] ++ padZero2 d.month ++ ['-'] ++ padZero2 d.day)

/-- Download filename assigned on a successful export. -/
def exportFileName (d : UtcDate) : String :=
  "conversions-export-" ++ isoDatePart d ++ ".csv"

/-- C4: while an export is loading the control is disabled, so a click while a
prior export is in flight is a no-op and issues no second network call; a
click in any state issues at most one call. -/
theorem export_single_flight :
    exportButtonDisabled ExportState.loading = true
    ∧ clickExport ExportState.loading = (ExportState.loading, 0)
    ∧ (clickExport ExportState.loading).2 = 0
    ∧ (clickExport ExportState.idle).2 = 1
    ∧ (clickExport ExportState.success).2 = 1
    ∧ (clickExport ExportState.error).2 = 1 := by
  exact ⟨rfl, rfl, rfl, rfl, rfl, rfl⟩

theorem digitChar_mod_ten_isDigit (n : Nat) : (Nat.digitChar (n % 10)).isDigit = true := by
  have h : n % 10 < 10 := Nat.mod_lt _ (by omega)
  generalize hm : n % 10 = m at h
  interval_cases m <;> decide

/-- C5: on success the downloaded file is named conversions-export-<date>.csv
with the date in YYYY-MM-DD form (ten characters, two dashes, eight digits),
and the flow auto-resets to idle after 3000 ms; on failure the error message
is retained in the displayed state and the auto-reset, which also clears the
message, fires only after 5000 ms — a strictly longer window. -/
theorem export_filename_and_reset_windows (d : UtcDate) (msg : String) :
    (exportFileName d).data
        = "conversions-export-".data ++ (isoDatePart d).data ++ ".csv".data
    ∧ (∃ c0 c1 c2 c3 c5 c6 c8 c9,
        (isoDatePart d).data = [c0, c1, c2, c3, '-', c5, c6, '-', c8, c9]
        ∧ (c0.isDigit && c1.isDigit && c2.isDigit && c3.isDigit
            && c5.isDigit && c6.isDigit && c8.isDigit && c9.isDigit) = true)
    ∧ (isoDatePart d).length = 10
    ∧ successResetDelayMs = 3000
    ∧ errorResetDelayMs = 5000
    ∧ successResetDelayMs < errorResetDelayMs
    ∧ successResetAction afterExportSuccess
        = { state := ExportState.idle, errorMessage := "" }
    ∧ afterExportFailure msg = { state := ExportState.error, errorMessage := msg }
    ∧ errorResetAction (afterExportFailure msg)
        = { state := ExportState.idle, errorMessage := "" } := by
  refine ⟨by simp [exportFileName], ?_, ?_, rfl, rfl, by decide, rfl, rfl, rfl⟩
  · exact ⟨Nat.digitChar (d.year / 1000 % 10), Nat.digitChar (d.year / 100 % 10),
      Nat.digitChar (d.year / 10 % 10), Nat.digitChar (d.year % 10),
      Nat.digitChar (d.month / 10 % 10), Nat.digitChar (d.month % 10),
      Nat.digitChar (d.day / 10 % 10), Nat.digitChar (d.day % 10),
      by simp [isoDatePart, padZero4, padZero2],
      by simp [digitChar_mod_ten_isDigit]⟩
  · simp [isoDatePart, padZero4, padZero2]

/-- C5 witness: the filename and windows evaluated at a concrete date. -/
theorem export_filename_and_reset_windows_witness :
    exportFileName { year := 2026, month := 10, day := 11 }
      = "conversions-export-2026-10-11.csv"
    ∧ successResetDelayMs = 3000
    ∧ errorResetDelayMs = 5000 := by
  refine ⟨?_, (export_filename_and_reset_windows
      { year := 2026, month := 10, day := 11 } "oops").2.2.2.1,
    (export_filename_and_reset_windows
      { year := 2026, month := 10, day := 11 } "oops").2.2.2.2.1⟩
  decide

/- ## Polling configuration -/

/-- A polling subscription: the resource key it queries together with the
declared refetch interval in milliseconds. -/
structure PollingSub where
  key : String
  intervalMs : Nat
deriving DecidableEq, Repr

/-- Subscription of the detailed conversions table. -/
def conversionsTableSub : PollingSub := { key := "conversions", intervalMs := 10000 }

/-- Subscription of the minimal conversions table variant. -/
def legacyConversionsTableSub : PollingSub := { key := "conversions", intervalMs := 10000 }

/-- Subscription of the detailed stats card grid. -/
def statsCardSub : PollingSub := { key := "stats", intervalMs := 30000 }

/-- Subscription of the minimal stats card variant. -/
def legacyStatsCardSub : PollingSub := { key := "stats", intervalMs := 30000 }

/-- Subscription of the system health view. -/
def systemHealthSub : PollingSub := { key := "systemHealth", intervalMs := 10000 }

/-- Subscription of the error tracking view. -/
def errorTrackingSub : PollingSub := { key := "errorTracking", intervalMs := 30000 }

/-- Subscription of the timeseries chart. -/
def timeseriesSub : PollingSub := { key := "timeseries", intervalMs := 60000 }

/-- Subscription of the feature usage chart. -/
def featureUsageSub : PollingSub := { key := "featureUsage", intervalMs := 60000 }

/-- Subscription of the geographic distribution view, which polls the
user analytics resource. -/
def geoDistributionSub : PollingSub := { key := "userAnalytics", intervalMs := 60000 }

/-- C8: every polled resource the specification lists declares exactly the
interval the specification gives it: stats 30 s (in both stats views),
conversions 10 s (in both conversions views), timeseries, feature usage and
geographic distribution 60 s, system health 10 s, error tracking 30 s. -/
theorem polling_intervals_as_specified :
    statsCardSub.intervalMs = 30000
    ∧ legacyStatsCardSub.intervalMs = 30000
    ∧ conversionsTableSub.intervalMs = 10000
    ∧ legacyConversionsTableSub.intervalMs = 10000
    ∧ timeseriesSub.intervalMs = 60000
    ∧ featureUsageSub.intervalMs = 60000
    ∧ geoDistributionSub.intervalMs = 60000
    ∧ systemHealthSub.intervalMs = 10000
    ∧ errorTrackingSub.intervalMs = 30000 := by
  exact ⟨rfl, rfl, rfl, rfl, rfl, rfl, rfl, rfl, rfl⟩

/- ## Phone number masking -/

/-- The four-asterisk mask inserted between the shown head and tail. -/
def maskChars : List Char := ['*', '*', '*', '*']

/-- formatPhoneNumber from the conversions tables: a number longer than 6
characters is shown as its first four characters, four asterisks, and its
last four characters (slice 0 4, the mask, slice -4); a shorter number is
shown unchanged. -/
def formatPhoneNumber (phone : String) : String :=
  if 6 < phone.length then
    String.mk (phone.data.take 4 ++ maskChars ++ phone.data.drop (phone.data.length - 4))
  else phone

/-- C9: a phone number longer than 6 characters is displayed as its first four
characters, the mask, and its last four characters — a 12-character string; a
number of 6 or fewer characters is displayed unchanged; and for lengths 7 and
8 the shown head and tail overlap, so every character position of the input
is present in the shown head or in the shown tail. -/
theorem formatPhoneNumber_masking (phone : String) :
    (6 < phone.length →
      (formatPhoneNumber phone).data
          = phone.data.take 4 ++ maskChars ++ phone.data.drop (phone.data.length - 4)
      ∧ (formatPhoneNumber phone).length = 12)
    ∧ (phone.length ≤ 6 → formatPhoneNumber phone = phone)
    ∧ ((phone.length = 7 ∨ phone.length = 8) →
        ∀ i, i < phone.data.length →
          (i < 4 ∧ (phone.data.take 4)[i]? = phone.data[i]?)
          ∨ (phone.data.length - 4 ≤ i
              ∧ (phone.data.drop (phone.data.length - 4))[i - (phone.data.length - 4)]?
                  = phone.data[i]?)) := by
  refine ⟨?_, ?_, ?_⟩
  · intro h
    have hd : 6 < phone.data.length := h
    constructor
    · simp [formatPhoneNumber, h]
    · simp [formatPhoneNumber, h, maskChars]
      omega
  · intro h
    unfold formatPhoneNumber
    rw [if_neg (by omega)]
  · intro h78 i hi
    have hlen : phone.data.length = 7 ∨ phone.data.length = 8 := h78
    have h4 : i < 4 ∨ phone.data.length - 4 ≤ i := by omega
    cases h4 with
    | inl h4 =>
      exact Or.inl ⟨h4, List.getElem?_take_of_lt h4⟩
    | inr h4 =>
      refine Or.inr ⟨h4, ?_⟩
      rw [List.getElem?_drop]
      congr 1
      omega

/-- C9 witness: the masked form of a concrete 12-character number. -/
theorem formatPhoneNumber_masking_witness :
    6 < ("491701234567" : String).length
    ∧ (formatPhoneNumber "491701234567").length = 12
    ∧ formatPhoneNumber "491701234567" = "4917****4567" := by
  refine ⟨by decide, ((formatPhoneNumber_masking "491701234567").1 (by decide)).2, by decide⟩

/- ## Geographic distribution shares -/

/-- One row of the country distribution of the user analytics response. -/
structure CountryCount where
  country : String
  code : String
  count : Nat
deriving DecidableEq, Repr

/-- Total user count across the distribution: the reduce summing the counts
from an initial 0. -/
def totalUsers (dist : List CountryCount) : Nat :=
  dist.foldl (fun sum c => sum + c.count) 0

/-- Decimal rendering with one fractional digit of a nonnegative rational,
modeling toFixed(1) applied to the share computation. -/
def toFixedOne (q : ℚ) : String :=
  toString ((⌊q * 10 + 1 / 2⌋ : Int) / 10) ++ "." ++ toString ((⌊q * 10 + 1 / 2⌋ : Int) % 10)

/-- Share cell text: the percentage with one decimal when the total user count
is positive, else the literal written by the zero guard. -/
def shareDisplay (count total : Nat) : String :=
  if 0 < total then toFixedOne (((count : ℚ) / total) * 100) else "0.0"

/-- All share cells of the geographic table for a distribution. -/
def geoShares (dist : List CountryCount) : List String :=
  dist.map (fun c => shareDisplay c.count (totalUsers dist))

/-- C10: the share computation is guarded against a zero denominator: whenever
the total user count across the distribution is 0, every displayed share cell
is the string given by the guard, never the result of a division by zero. -/
theorem geo_share_zero_guard (dist : List CountryCount) (h : totalUsers dist = 0) :
    geoShares dist = dist.map (fun _ => "0.0") := by
  unfold geoShares
  simp [shareDisplay, h]

/-- C10 witness: a two-row distribution with zero users in total shows the
guard string in both rows. -/
theorem geo_share_zero_guard_witness :
    totalUsers [{ country := "Germany", code := "DE", count := 0 },
                { country := "France", code := "FR", count := 0 }] = 0
    ∧ geoShares [{ country := "Germany", code := "DE", count := 0 },
                 { country := "France", code := "FR", count := 0 }] = ["0.0", "0.0"] := by
  refine ⟨rfl, ?_⟩
  exact (geo_share_zero_guard
    [{ country := "Germany", code := "DE", count := 0 },
     { country := "France", code := "FR", count := 0 }] rfl).trans rfl
